import Mathlib

/-!
# Verification of the node-tcnet wire codec (`src/network.ts`)

A shallow embedding of the packet readers and writers of `src/network.ts`.

Conventions of the embedding:

* A Node.js `Buffer` is a `List Nat` of byte values (each `< 256`).
* JavaScript strings are `List Nat` of UTF-16 code units; Node's
  `toString("ascii")` keeps the low 7 bits of each byte, `toString("utf16le")`
  pairs consecutive bytes little-endian (a trailing odd byte is ignored).
* `Buffer.readUIntNLE` / `writeUIntNLE` throw a `RangeError` on an
  out-of-bounds offset (or out-of-range value); fallible operations are
  embedded in `Except String`.
* `Buffer.slice(a, b)` never throws: both ends are clamped to the buffer and
  the result is empty when `b ≤ a`.
* The source imports `assert` from `"console"`; `console.assert` only logs on
  failure and never throws, so an `assert(e)` in the source contributes the
  evaluation of the reads inside `e` (which can throw) but no control flow.
-/

/-- Byte buffers: the embedding of a Node.js `Buffer`. -/
abbrev Buf := List Nat

/-- The error carried by a Node `RangeError` on an out-of-bounds access. -/
def oobMsg : String := "ERR_OUT_OF_RANGE"

/-- Node `Buffer.readUInt8(off)`: the byte at `off`, throwing past the end. -/
def bufReadUInt8 (buf : Buf) (off : Nat) : Except String Nat :=
  if off + 1 ≤ buf.length then .ok (buf.getD off 0) else .error oobMsg

/-- Node `Buffer.readUInt16LE(off)`: two bytes little-endian. -/
def bufReadUInt16LE (buf : Buf) (off : Nat) : Except String Nat :=
  if off + 2 ≤ buf.length then
    .ok (buf.getD off 0 + 256 * buf.getD (off + 1) 0)
  else .error oobMsg

/-- Node `Buffer.readUInt32LE(off)`: four bytes little-endian. -/
def bufReadUInt32LE (buf : Buf) (off : Nat) : Except String Nat :=
  if off + 4 ≤ buf.length then
    .ok (buf.getD off 0 + 256 * buf.getD (off + 1) 0 + 65536 * buf.getD (off + 2) 0 +
      16777216 * buf.getD (off + 3) 0)
  else .error oobMsg

/-- Node `Buffer.slice(a, b)`: clamps both ends, empty when `b ≤ a`, never throws. -/
def bufSlice (buf : Buf) (a b : Nat) : Buf := (buf.take b).drop a

/-- Node `Buffer.writeUInt8(value, off)`: bounds- and range-checked. -/
def bufWriteUInt8 (buf : Buf) (value off : Nat) : Except String Buf :=
  if off + 1 ≤ buf.length ∧ value ≤ 255 then .ok (buf.set off value) else .error oobMsg

/-- Node `Buffer.writeUInt16LE(value, off)`. -/
def bufWriteUInt16LE (buf : Buf) (value off : Nat) : Except String Buf :=
  if off + 2 ≤ buf.length ∧ value ≤ 65535 then
    .ok ((buf.set off (value % 256)).set (off + 1) (value / 256 % 256))
  else .error oobMsg

/-- Node `Buffer.writeUInt32LE(value, off)`. -/
def bufWriteUInt32LE (buf : Buf) (value off : Nat) : Except String Buf :=
  if off + 4 ≤ buf.length ∧ value ≤ 4294967295 then
    .ok ((((buf.set off (value % 256)).set (off + 1) (value / 256 % 256)).set
      (off + 2) (value / 65536 % 256)).set (off + 3) (value / 16777216 % 256))
  else .error oobMsg

/-- Node `Buffer.write(s, off, "ascii")`: stores the low byte of each code unit
at consecutive offsets; writes past the end of the buffer are dropped
(`List.set` out of range is the identity, matching Node's clamping). -/
def bufWriteAscii (buf : Buf) (s : List Nat) (off : Nat) : Buf :=
  match s with
  | [] => buf
  | c :: rest => bufWriteAscii (buf.set off (c % 256)) rest (off + 1)

/-- Node `buf.toString("ascii")`: keeps the low 7 bits of every byte. -/
def asciiDecode (bs : Buf) : List Nat := bs.map (· % 128)

/-- Node `buf.toString("utf16le")`: consecutive byte pairs little-endian;
a trailing odd byte is ignored. -/
def utf16leDecode : Buf → List Nat
  | b0 :: b1 :: rest => (b0 + 256 * b1) :: utf16leDecode rest
  | _ => []

/-- JavaScript `String.prototype.padEnd(n, "\x00")` on a code-unit list. -/
def padEnd (s : List Nat) (n : Nat) : List Nat := s ++ List.replicate (n - s.length) 0

/-- Line terminators that `.` does not match in a JavaScript regular
expression: LF, CR, U+2028, U+2029. -/
def isLineTerm (c : Nat) : Bool := c == 10 || c == 13 || c == 8232 || c == 8233

/-- JavaScript `s.replace(/\0.*$/g, "")` on a code-unit list: `$` matches only
at the end of the input and `.` matches no line terminator, so the (single
possible) match starts at the leftmost NUL that has no line terminator after
it, and runs to the end; without such a NUL the string is unchanged. -/
def nulTrim : List Nat → List Nat
  | [] => []
  | c :: rest =>
    if c == 0 && rest.all (fun x => !isLineTerm x) then [] else c :: nulTrim rest

/-- Modelled from the spec: trimming "up to but excluding the first NUL byte"
as the claims describe it, for comparison against the source's `nulTrim`. -/
def specTrimAtFirstNul (s : List Nat) : List Nat := s.takeWhile (fun c => c != 0)

/-! ## TCNetManagementHeader (network.ts:58-106) -/

/-- The fields produced by `TCNetManagementHeader.read`. -/
structure TCNetManagementHeaderR where
  nodeId : Nat
  minorVersion : Nat
  messageType : Nat
  nodeName : List Nat
  seq : Nat
  nodeType : Nat
  nodeOptions : Nat
  timestamp : Nat
deriving DecidableEq

/-- The `nodeName` accessor of `TCNetManagementHeader.read` (network.ts:85):
`slice(8, 16).toString("ascii").replace(/\0.*$/g, "")`. -/
def headerNodeNameField (buf : Buf) : List Nat := nulTrim (asciiDecode (bufSlice buf 8 16))

/-- The predicate asserted at network.ts:80: `readUInt8(2) == MAJOR_VERSION`. -/
def headerVersionOk (buf : Buf) : Bool := buf.getD 2 0 == 3

/-- The predicate asserted at network.ts:82:
`slice(4, 7).toString("ascii") == "TCN"` (`"TCN"` is `[84, 67, 78]`). -/
def headerMagicOk (buf : Buf) : Bool := asciiDecode (bufSlice buf 4 7) == [84, 67, 78]

/-- `TCNetManagementHeader.read` (network.ts:77-90).  The two `assert` calls
are `console.assert`: they log on failure but never throw, so only the read
inside the first one (`readUInt8(2)`) participates in control flow, and only
by throwing on a buffer shorter than 3 bytes. -/
def managementHeaderRead (buf : Buf) : Except String TCNetManagementHeaderR :=
  match bufReadUInt16LE buf 0, bufReadUInt8 buf 2, bufReadUInt8 buf 3, bufReadUInt8 buf 7 with
  | .ok nodeId, .ok _assertedMajor, .ok minorVersion, .ok messageType =>
    match bufReadUInt8 buf 16, bufReadUInt8 buf 17, bufReadUInt16LE buf 18,
        bufReadUInt32LE buf 20 with
    | .ok seq, .ok nodeType, .ok nodeOptions, .ok timestamp =>
      .ok ⟨nodeId, minorVersion, messageType, headerNodeNameField buf, seq, nodeType,
        nodeOptions, timestamp⟩
    | .error e, _, _, _ => .error e
    | _, .error e, _, _ => .error e
    | _, _, .error e, _ => .error e
    | _, _, _, .error e => .error e
  | .error e, _, _, _ => .error e
  | _, .error e, _, _ => .error e
  | _, _, .error e, _ => .error e
  | _, _, _, .error e => .error e

/-! ## TCNetOptInPacket (network.ts:108-150) -/

/-- The fields of `TCNetOptInPacket`. -/
structure TCNetOptInPacketR where
  nodeCount : Nat
  nodeListenerPort : Nat
  uptime : Nat
  vendorName : List Nat
  appName : List Nat
  majorVersion : Nat
  minorVersion : Nat
  bugVersion : Nat
deriving DecidableEq

/-- `TCNetOptInPacket.read` (network.ts:118-127). -/
def optInRead (buf : Buf) : Except String TCNetOptInPacketR :=
  match bufReadUInt16LE buf 24, bufReadUInt16LE buf 26, bufReadUInt16LE buf 28 with
  | .ok nodeCount, .ok nodeListenerPort, .ok uptime =>
    match bufReadUInt8 buf 64, bufReadUInt8 buf 65, bufReadUInt8 buf 66 with
    | .ok majorVersion, .ok minorVersion, .ok bugVersion =>
      .ok ⟨nodeCount, nodeListenerPort, uptime,
        nulTrim (asciiDecode (bufSlice buf 32 48)),
        nulTrim (asciiDecode (bufSlice buf 48 64)),
        majorVersion, minorVersion, bugVersion⟩
    | .error e, _, _ => .error e
    | _, .error e, _ => .error e
    | _, _, .error e => .error e
  | .error e, _, _ => .error e
  | _, .error e, _ => .error e
  | _, _, .error e => .error e

/-- `TCNetOptInPacket.write` (network.ts:129-141).  The two length `assert`s
are `console.assert` (no control flow).  Lines 138-140 of the source call
`writeUInt8(64, this.majorVersion)` and so on: `writeUInt8` takes
`(value, offset)`, so the constant 64/65/66 is the *value* and the version
field is the *offset*. -/
def optInWrite (p : TCNetOptInPacketR) (buf : Buf) : Except String Buf :=
  match bufWriteUInt16LE buf p.nodeCount 24 with
  | .error e => .error e
  | .ok buf1 =>
    match bufWriteUInt16LE buf1 p.nodeListenerPort 26 with
    | .error e => .error e
    | .ok buf2 =>
      match bufWriteUInt16LE buf2 p.uptime 28 with
      | .error e => .error e
      | .ok buf3 =>
        let buf4 := bufWriteAscii buf3 (padEnd p.vendorName 16) 32
        let buf5 := bufWriteAscii buf4 (padEnd p.appName 16) 48
        match bufWriteUInt8 buf5 64 p.majorVersion with
        | .error e => .error e
        | .ok buf6 =>
          match bufWriteUInt8 buf6 65 p.minorVersion with
          | .error e => .error e
          | .ok buf7 =>
            match bufWriteUInt8 buf7 66 p.bugVersion with
            | .error e => .error e
            | .ok buf8 => .ok buf8

/-! ## Concrete inputs for the header and OptIn claims -/

/-- A 24-byte datagram with major version byte 0 (not 3) and magic `"XXX"`
(bytes 88 88 88, not `"TCN"`): nodeId 7, minor version 1, message type 2. -/
def c2BadBuf : Buf := [7, 0, 0, 1, 88, 88, 88, 2] ++ List.replicate 16 0

/-- An OptIn packet whose integer fields are in `u8`/`u16` range and whose
strings are within their fixed widths. -/
def c1Packet : TCNetOptInPacketR := ⟨0, 0, 0, [], [], 1, 2, 3⟩

/-- A fresh zeroed 68-byte OptIn-sized buffer. -/
def zeros68 : Buf := List.replicate 68 0

/-- C2: on a buffer whose version byte and magic are both wrong, the header
decoder still returns a decoded header value — the `assert` calls are
`console.assert`, which logs and never throws, so nothing rejects the
datagram.  The claim says decoding fails and no packet value is produced. -/
theorem c2_header_bad_magic_accepted :
    headerVersionOk c2BadBuf = false ∧ headerMagicOk c2BadBuf = false ∧
      managementHeaderRead c2BadBuf = .ok ⟨7, 1, 2, [], 0, 0, 0, 0⟩ :=
  ⟨rfl, rfl, rfl⟩

/-- C1: writing the OptIn packet with `majorVersion = 1`, `minorVersion = 2`,
`bugVersion = 3` to a zeroed 68-byte buffer and reading it back yields
versions `0, 0, 0`: the source passes `(64, majorVersion)` to
`writeUInt8(value, offset)` in the wrong order, so the version bytes at
offsets 64-66 are never written and the round-trip fails. -/
theorem c1_optin_version_roundtrip_bug :
    (optInWrite c1Packet zeros68).bind optInRead = .ok ⟨0, 0, 0, [], [], 0, 0, 0⟩ ∧
      (⟨0, 0, 0, [], [], 0, 0, 0⟩ : TCNetOptInPacketR) ≠ c1Packet :=
  ⟨rfl, by decide⟩

/-! ## TCNetDataPacketMetadata (network.ts:383-403) and the MixerData name -/

/-- The fields of `TCNetDataPacketMetadata`. -/
structure TCNetDataPacketMetadataR where
  trackArtist : List Nat
  trackTitle : List Nat
  trackKey : Nat
  trackID : Nat
deriving DecidableEq

/-- The `trackArtist` accessor (network.ts:390):
`slice(29, 285).toString("utf16le").replace(/\0.*$/g, "")`.  `slice` clamps
and `toString` is total, so this accessor never throws. -/
def metadataArtistField (buf : Buf) : List Nat :=
  nulTrim (utf16leDecode (bufSlice buf 29 285))

/-- The `trackTitle` accessor (network.ts:391). -/
def metadataTitleField (buf : Buf) : List Nat :=
  nulTrim (utf16leDecode (bufSlice buf 285 541))

/-- `TCNetDataPacketMetadata.read` (network.ts:389-394). -/
def metadataRead (buf : Buf) : Except String TCNetDataPacketMetadataR :=
  match bufReadUInt16LE buf 541, bufReadUInt32LE buf 543 with
  | .ok trackKey, .ok trackID =>
    .ok ⟨metadataArtistField buf, metadataTitleField buf, trackKey, trackID⟩
  | .error e, _ => .error e
  | _, .error e => .error e

/-- The `mixerName` accessor of `TCNetDataPacketMixerData.read`
(network.ts:546): `slice(29, 29 + 16).toString("ascii")` — note that unlike
every other string field it has no `.replace(/\0.*$/g, "")`. -/
def mixerNameField (buf : Buf) : List Nat := asciiDecode (bufSlice buf 29 45)

/-! ## Helper lemmas about the regex trim -/

/-- On a string without line terminators, the `/\0.*$/g` replace removes
exactly the first NUL and everything after it. -/
theorem nulTrim_no_term (s : List Nat) (h : ∀ c ∈ s, isLineTerm c = false) :
    nulTrim s = s.takeWhile (fun c => c != 0) := by
  induction s with
  | nil => rfl
  | cons c rest ih =>
    by_cases hc : c = 0
    · subst hc
      have hall : rest.all (fun x => !isLineTerm x) = true := by
        rw [List.all_eq_true]
        intro x hx
        simp [h x (List.mem_cons_of_mem _ hx)]
      simp [nulTrim, hall, List.takeWhile]
    · have hrest : nulTrim rest = rest.takeWhile (fun c => c != 0) :=
        ih (fun x hx => h x (List.mem_cons_of_mem _ hx))
      have hcb : (c != 0) = true := by simp [hc]
      simp [nulTrim, hc, List.takeWhile, hcb, hrest]

/-- A string without any NUL is left unchanged by the `/\0.*$/g` replace. -/
theorem nulTrim_no_nul (s : List Nat) (h : ∀ c ∈ s, c ≠ 0) :
    nulTrim s = s := by
  induction s with
  | nil => rfl
  | cons c rest ih =>
    have hc : c ≠ 0 := h c (List.mem_cons_self c rest)
    simp [nulTrim, hc, ih (fun x hx => h x (List.mem_cons_of_mem _ hx))]

/-! ## Claims C3, C4, C5: string framing and the Metadata decoder -/

/-- A 31-byte buffer of `"A"` bytes: far shorter than the 548-byte Metadata
layout, whose artist field spans bytes 29..285. -/
def c3Buf : Buf := List.replicate 31 65

/-- C3 counterexample: on a 31-byte buffer the artist accessor's
`slice(29, 285)` clamps to 2 bytes and the (total) UTF-16LE decode returns the
one-unit string `[16705]` — a string decoded from fewer bytes than the
256-byte width, produced without any error, while the integer accessor at
offset 541 does fail.  The claim says every accessor, string reads included,
fails rather than silently truncating. -/
theorem c3_string_slice_truncates :
    (bufSlice c3Buf 29 285).length = 2 ∧ metadataArtistField c3Buf = [16705] ∧
      bufReadUInt16LE c3Buf 541 = .error oobMsg :=
  ⟨rfl, rfl, rfl⟩

/-- C3 amended: the integer accessors do fail with a range error on a buffer
too short for their span, but the string accessors are built on `slice`,
which clamps the span to the end of the buffer: they decode exactly the
available `min 285 len - 29` bytes and never raise. -/
theorem c3_short_buffer_amended (buf : Buf) (off : Nat) (h : buf.length < off + 2) :
    bufReadUInt16LE buf off = .error oobMsg ∧
      (bufSlice buf 29 285).length = min 285 buf.length - 29 ∧
      metadataArtistField buf = nulTrim (utf16leDecode (bufSlice buf 29 285)) := by
  refine ⟨?_, ?_, rfl⟩
  · unfold bufReadUInt16LE
    rw [if_neg (by omega)]
  · simp [bufSlice, List.length_drop, List.length_take]

/-- Witness for `c3_short_buffer_amended` at the concrete 31-byte buffer. -/
theorem c3_short_buffer_amended_witness :
    bufReadUInt16LE c3Buf 541 = .error oobMsg ∧
      (bufSlice c3Buf 29 285).length = min 285 c3Buf.length - 29 := by
  have h := c3_short_buffer_amended c3Buf 541 (by decide)
  exact ⟨h.1, h.2.1⟩

/-- A zeroed 548-byte MixerData-sized buffer. -/
def z548 : Buf := List.replicate 548 0

/-- C4 counterexample: the `mixerName` field of `TCNetDataPacketMixerData`
has no NUL trimming at all, so a field of only NULs decodes to a string of 16
NUL characters, not to the empty string the claim requires. -/
theorem c4_mixer_name_untrimmed :
    mixerNameField z548 = List.replicate 16 0 ∧ (List.replicate 16 0 : List Nat) ≠ [] :=
  ⟨rfl, by decide⟩

/-- C4 amended: for the fields that go through `.replace(/\0.*$/g, "")`
(header `nodeName`, OptIn `vendorName`/`appName`, Status `layerName`,
Metadata artist/title) the decode equals the prefix before the first NUL
*provided no line terminator occurs in the field* (in particular an all-NUL
field gives the empty string and a NUL-free field the full width); when a
line terminator follows every NUL, the field is kept whole, NULs included;
and `mixerName` is returned with no trimming whatsoever. -/
theorem c4_nul_trim_amended (buf : Buf) (s : List Nat) (n : Nat)
    (hterm : ∀ c ∈ asciiDecode (bufSlice buf 8 16), isLineTerm c = false) :
    headerNodeNameField buf = (asciiDecode (bufSlice buf 8 16)).takeWhile (fun c => c != 0) ∧
      nulTrim (List.replicate n 0) = [] ∧
      ((∀ c ∈ s, c ≠ 0) → nulTrim s = s) ∧
      mixerNameField buf = asciiDecode (bufSlice buf 29 45) := by
  refine ⟨nulTrim_no_term _ hterm, ?_, nulTrim_no_nul s, rfl⟩
  cases n with
  | zero => rfl
  | succ k =>
    have hall : (List.replicate k 0).all (fun x => !isLineTerm x) = true := by
      rw [List.all_eq_true]
      intro x hx
      have hx0 := List.eq_of_mem_replicate hx
      subst hx0
      rfl
    simp [List.replicate_succ, nulTrim, hall]

/-- Witness for `c4_nul_trim_amended` at concrete inputs. -/
theorem c4_nul_trim_amended_witness :
    headerNodeNameField (List.replicate 24 0) = [] ∧ nulTrim [1, 2] = [1, 2] := by
  have h := c4_nul_trim_amended (List.replicate 24 0) [1, 2] 3 (by decide)
  exact ⟨h.1.trans (by decide), h.2.2.1 (by decide)⟩

/-- A 548-byte Metadata buffer whose artist field starts with a NUL character
followed by a line feed (UTF-16LE bytes `00 00 0A 00` at offsets 29..33). -/
def c5cBuf : Buf := List.replicate 29 0 ++ [0, 0, 10, 0] ++ List.replicate 515 0

/-- C5 counterexample: on `c5cBuf` the decoder returns the artist `[0, 10]`
(the NUL and the line feed), not the empty string that trimming at the first
NUL would give: the `/\0.*$/g` replace cannot match a NUL that has a line
terminator after it. -/
theorem c5_artist_trim_counterexample :
    metadataArtistField c5cBuf = [0, 10] ∧
      specTrimAtFirstNul (utf16leDecode (bufSlice c5cBuf 29 285)) = [] ∧
      ([0, 10] : List Nat) ≠ [] :=
  ⟨rfl, rfl, by decide⟩

/-- C5 amended: on every 548-byte buffer the Metadata decoder returns the
artist decoded as UTF-16LE from bytes 29..285 and the title from bytes
285..541 — each passed through the source's `/\0.*$/g` trim, which equals
"trimmed at the first NUL" only when no line terminator follows that NUL —
`trackKey` as u16 LE at 541 and `trackID` as u32 LE at 543. -/
theorem c5_metadata_amended (buf : Buf) (h : buf.length = 548) :
    metadataRead buf = .ok ⟨metadataArtistField buf, metadataTitleField buf,
      buf.getD 541 0 + 256 * buf.getD 542 0,
      buf.getD 543 0 + 256 * buf.getD 544 0 + 65536 * buf.getD 545 0 +
        16777216 * buf.getD 546 0⟩ := by
  unfold metadataRead bufReadUInt16LE bufReadUInt32LE
  rw [if_pos (by omega), if_pos (by omega)]

/-- The UTF-16LE bytes of `"Artist"`. -/
def c5ArtistBytes : Buf := [65, 0, 114, 0, 116, 0, 105, 0, 115, 0, 116, 0]

/-- The UTF-16LE bytes of `"Song"`. -/
def c5TitleBytes : Buf := [83, 0, 111, 0, 110, 0, 103, 0]

/-- The 548-byte Metadata buffer of the spec's scenario: artist `"Artist"`,
title `"Song"`, key 5, trackID 42, data sub-type 4 at offset 24. -/
def c5mBuf : Buf :=
  List.replicate 24 0 ++ [4, 0, 0, 0, 0] ++ (c5ArtistBytes ++ List.replicate 244 0) ++
    (c5TitleBytes ++ List.replicate 248 0) ++ [5, 0, 42, 0, 0, 0, 0]

set_option maxRecDepth 40000 in
/-- Witness for `c5_metadata_amended`: the scenario buffer parses back to
exactly `"Artist"` / `"Song"` / 5 / 42. -/
theorem c5_metadata_amended_witness :
    c5mBuf.length = 548 ∧
      metadataRead c5mBuf = .ok ⟨[65, 114, 116, 105, 115, 116], [83, 111, 110, 103], 5, 42⟩ := by
  have h := c5_metadata_amended c5mBuf (by decide)
  exact ⟨by decide, h.trans (by rfl)⟩

/-! ## TCNetDataPacketWaveFormData (network.ts:713-742) -/

/-- One entry pushed into `waveformData`. -/
structure WaveformSample where
  color : Nat
  level : Nat
deriving DecidableEq

/-- The fields of `TCNetDataPacketWaveFormData`. -/
structure TCNetDataPacketWaveFormDataR where
  layerID : Nat
  dataSize : Nat
  totalPacket : Nat
  packetNumber : Nat
  waveformData : List WaveformSample
deriving DecidableEq

/-- The sample loop of `TCNetDataPacketWaveFormData.read` (network.ts:734-736):
for each `i` below the iteration count it pushes
`{ color: waves.readUInt8(i * 2), level: waves.readUInt8((i + 1) * 2) }` —
the level index is `(i + 1) * 2`, not `i * 2 + 1`. -/
def wavesFrom (waves : Buf) (i n : Nat) : Except String (List WaveformSample) :=
  if _h : i < n then
    match bufReadUInt8 waves (i * 2), bufReadUInt8 waves ((i + 1) * 2) with
    | .ok c, .ok l =>
      match wavesFrom waves (i + 1) n with
      | .ok rest => .ok (⟨c, l⟩ :: rest)
      | .error e => .error e
    | .error e, _ => .error e
    | _, .error e => .error e
  else .ok []
termination_by n - i

/-- `TCNetDataPacketWaveFormData.read` (network.ts:720-737).  The
`readUInt8(24)` guarding the SmallWaveForm size `console.assert` is
evaluated (and can throw), but the assert itself only logs.  The JavaScript
loop bound `i < waves.length / 2` uses float division, hence
`(waves.length + 1) / 2` iterations in integer arithmetic. -/
def waveformRead (buf : Buf) : Except String TCNetDataPacketWaveFormDataR :=
  match bufReadUInt8 buf 25, bufReadUInt32LE buf 26 with
  | .ok layerID, .ok dataSize =>
    match bufReadUInt8 buf 24 with
    | .ok _ =>
      match bufReadUInt32LE buf 30, bufReadUInt32LE buf 34 with
      | .ok totalPacket, .ok packetNumber =>
        match wavesFrom (bufSlice buf 42 (42 + dataSize)) 0
            (((bufSlice buf 42 (42 + dataSize)).length + 1) / 2) with
        | .ok samples => .ok ⟨layerID, dataSize, totalPacket, packetNumber, samples⟩
        | .error e => .error e
      | .error e, _ => .error e
      | _, .error e => .error e
    | .error e => .error e
  | .error e, _ => .error e
  | _, .error e => .error e

/-- On a payload of even length `2 * n` the sample loop always throws: every
iteration up to the last succeeds on the color byte at `i * 2`, but the final
iteration reads the level byte at `(n - 1 + 1) * 2 = 2 * n`, one past the end
of the payload. -/
theorem wavesFrom_oob (waves : Buf) (n : Nat) (hlen : waves.length = 2 * n) :
    ∀ i, i < n → wavesFrom waves i n = .error oobMsg := by
  have key : ∀ k i, n - i = k → i < n → wavesFrom waves i n = .error oobMsg := by
    intro k
    induction k with
    | zero => intro i hk hi; omega
    | succ k ih =>
      intro i hk hi
      unfold wavesFrom
      rw [dif_pos hi]
      have hc : bufReadUInt8 waves (i * 2) = .ok (waves.getD (i * 2) 0) := by
        unfold bufReadUInt8
        rw [if_pos (by omega)]
      by_cases hin : i + 1 = n
      · have hl : bufReadUInt8 waves ((i + 1) * 2) = .error oobMsg := by
          unfold bufReadUInt8
          rw [if_neg (by omega)]
        rw [hc, hl]
      · have hl : bufReadUInt8 waves ((i + 1) * 2) = .ok (waves.getD ((i + 1) * 2) 0) := by
          unfold bufReadUInt8
          rw [if_pos (by omega)]
        rw [hc, hl, ih (i + 1) (by omega) (by omega)]
  exact fun i hi => key (n - i) i rfl hi

/-- A waveform datagram whose payload fills the buffer (length `42 + 2 * n`,
declared `dataSize = 2 * n`) always makes `read()` throw a bounds error. -/
theorem waveformRead_oob (buf : Buf) (n : Nat) (hn : 0 < n) (hl : buf.length = 42 + 2 * n)
    (hd : bufReadUInt32LE buf 26 = .ok (2 * n)) : waveformRead buf = .error oobMsg := by
  have h25 : bufReadUInt8 buf 25 = .ok (buf.getD 25 0) := by
    unfold bufReadUInt8
    rw [if_pos (by omega)]
  have h24 : bufReadUInt8 buf 24 = .ok (buf.getD 24 0) := by
    unfold bufReadUInt8
    rw [if_pos (by omega)]
  have h30 : bufReadUInt32LE buf 30 = .ok (buf.getD 30 0 + 256 * buf.getD 31 0 +
      65536 * buf.getD 32 0 + 16777216 * buf.getD 33 0) := by
    unfold bufReadUInt32LE
    rw [if_pos (by omega)]
  have h34 : bufReadUInt32LE buf 34 = .ok (buf.getD 34 0 + 256 * buf.getD 35 0 +
      65536 * buf.getD 36 0 + 16777216 * buf.getD 37 0) := by
    unfold bufReadUInt32LE
    rw [if_pos (by omega)]
  have hwlen : (bufSlice buf 42 (42 + 2 * n)).length = 2 * n := by
    simp [bufSlice, List.length_drop, List.length_take]
    omega
  have hn2 : ((bufSlice buf 42 (42 + 2 * n)).length + 1) / 2 = n := by
    rw [hwlen]
    omega
  have hw := wavesFrom_oob (bufSlice buf 42 (42 + 2 * n)) n hwlen 0 hn
  unfold waveformRead
  rw [h25, hd, h24, h30, h34]
  simp only [hn2, hw]

/-! ## Claims C6 and C9: the waveform decoder -/

/-- A SmallWaveForm datagram of the declared 2442 bytes: sub-type 16 at
offset 24, layer 0 at 25, `dataSize = 2400` little-endian at 26. -/
def c6Buf : Buf := List.replicate 24 0 ++ [16, 0, 96, 9, 0, 0] ++ List.replicate 2412 0

/-- C6: the waveform sample loop does not read level bytes at payload index
`2 * i + 1`.  Even on a minimal 2-byte payload (one sample) it reads the
level at index `(0 + 1) * 2 = 2`, past the end, and errors instead of
returning the pair `(7, 9)`; and on a full 2442-byte SmallWaveForm buffer
with `dataSize = 2400` the whole `read()` throws a bounds error instead of
producing 1200 color/level samples. -/
theorem c6_waveform_level_oob :
    wavesFrom [7, 9] 0 1 = .error oobMsg ∧ waveformRead c6Buf = .error oobMsg := by
  constructor
  · exact wavesFrom_oob [7, 9] 1 rfl 0 (by norm_num)
  · have hlen : c6Buf.length = 2442 := by
      simp only [c6Buf, List.length_append, List.length_replicate, List.length_cons,
        List.length_nil]
    have hd : bufReadUInt32LE c6Buf 26 = .ok 2400 := by
      unfold bufReadUInt32LE
      rw [if_pos (by omega)]
      rfl
    exact waveformRead_oob c6Buf 1200 (by norm_num) (by omega) hd

/-- C9: on every SmallWaveForm buffer of exactly 2442 bytes whose declared
`dataSize` is 2400 — and likewise every BigWaveForm buffer of exactly 4884
bytes with the full 4842-byte payload — `read()` raises a bounds error: the
final loop iteration reads a level byte at payload index equal to the payload
length. -/
theorem c9_waveform_read_always_oob (buf : Buf) :
    (buf.length = 2442 → bufReadUInt32LE buf 26 = .ok 2400 → waveformRead buf = .error oobMsg) ∧
      (buf.length = 4884 → bufReadUInt32LE buf 26 = .ok 4842 → waveformRead buf = .error oobMsg) := by
  constructor
  · intro h1 h2
    exact waveformRead_oob buf 1200 (by norm_num) (by omega) h2
  · intro h1 h2
    exact waveformRead_oob buf 2421 (by norm_num) (by omega) h2

/-- A 2442-byte SmallWaveForm datagram on layer 1 with `dataSize = 2400`. -/
def c9Buf : Buf := List.replicate 24 0 ++ [16, 1, 96, 9, 0, 0] ++ List.replicate 2412 0

/-- Witness for `c9_waveform_read_always_oob` at the concrete buffer. -/
theorem c9_waveform_read_always_oob_witness : waveformRead c9Buf = .error oobMsg := by
  have hlen : c9Buf.length = 2442 := by
    simp only [c9Buf, List.length_append, List.length_replicate, List.length_cons,
      List.length_nil]
  have hd : bufReadUInt32LE c9Buf 26 = .ok 2400 := by
    unfold bufReadUInt32LE
    rw [if_pos (by omega)]
    rfl
  exact (c9_waveform_read_always_oob c9Buf).1 hlen hd

/-! ## Claim C7: TCNetTimeSyncPacket (network.ts:752-775) -/

/-- The fields of `TCNetTimeSyncPacket`. -/
structure TCNetTimeSyncPacketR where
  step : Nat
  nodeListenerSupport : Nat
  remoteTimestamp : Nat
deriving DecidableEq

/-- `TCNetTimeSyncPacket.read` (network.ts:761-765): `step` at 24,
`nodeListenerSupport` as u16 LE at absolute offset 2 (inside the management
header), `remoteTimestamp` as u32 LE at 28. -/
def timeSyncRead (buf : Buf) : Except String TCNetTimeSyncPacketR :=
  match bufReadUInt8 buf 24, bufReadUInt16LE buf 2, bufReadUInt32LE buf 28 with
  | .ok step, .ok nodeListenerSupport, .ok remoteTimestamp =>
    .ok ⟨step, nodeListenerSupport, remoteTimestamp⟩
  | .error e, _, _ => .error e
  | _, .error e, _ => .error e
  | _, _, .error e => .error e

/-- C7: on every 32-byte TimeSync buffer the decoder returns `step` from the
byte at 24, `remoteTimestamp` from the four bytes at 28 little-endian, and
`nodeListenerSupport` from the two bytes at absolute offset 2 — a position
inside the 24-byte management header. -/
theorem c7_timesync_offsets (buf : Buf) (h : buf.length = 32) :
    timeSyncRead buf = .ok ⟨buf.getD 24 0, buf.getD 2 0 + 256 * buf.getD 3 0,
      buf.getD 28 0 + 256 * buf.getD 29 0 + 65536 * buf.getD 30 0 +
        16777216 * buf.getD 31 0⟩ := by
  unfold timeSyncRead bufReadUInt8 bufReadUInt16LE bufReadUInt32LE
  rw [if_pos (by omega), if_pos (by omega), if_pos (by omega)]

/-- The 32-byte buffer whose byte at offset `i` is `i`. -/
def c7Buf : Buf := List.range 32

/-- Witness for `c7_timesync_offsets`: on `c7Buf` the decoder yields
`step = 24`, `nodeListenerSupport = 2 + 256 * 3 = 770` and
`remoteTimestamp = 28 + 256 * 29 + 65536 * 30 + 16777216 * 31`. -/
theorem c7_timesync_offsets_witness :
    timeSyncRead c7Buf = .ok ⟨24, 770, 522067228⟩ :=
  (c7_timesync_offsets c7Buf (by decide)).trans (by rfl)

/-! ## Claim C8: TCNetKeyboardDataPacket (network.ts:842-863) -/

/-- The fields of `TCNetKeyboardDataPacket`. -/
structure TCNetKeyboardDataPacketR where
  dataSize : Nat
  keyboardData : Buf
deriving DecidableEq

/-- `TCNetKeyboardDataPacket.read` (network.ts:850-854): `dataSize` as u32 LE
at 26 and `keyboardData = buffer.slice(42, 2)` — the second argument of
`slice` is the *end* index, which is below the start, so the slice is
always empty. -/
def keyboardRead (buf : Buf) : Except String TCNetKeyboardDataPacketR :=
  match bufReadUInt32LE buf 26 with
  | .ok dataSize => .ok ⟨dataSize, bufSlice buf 42 2⟩
  | .error e => .error e

/-- A 44-byte Keyboard datagram whose two body payload bytes at offsets 42
and 43 are `9, 9`. -/
def c8Buf : Buf := List.replicate 42 0 ++ [9, 9]

/-- C8: on the 44-byte Keyboard datagram with payload bytes `9, 9` at
offsets 42-43, the decoder records `dataSize = 0` and an *empty*
`keyboardData` — `slice(42, 2)` has its end before its start — not the
non-empty 2-byte payload value the claim describes. -/
theorem c8_keyboard_empty_payload :
    c8Buf.length = 44 ∧ keyboardRead c8Buf = .ok ⟨0, []⟩ ∧ bufSlice c8Buf 42 2 = [] :=
  ⟨rfl, rfl, rfl⟩

/-! ## Claim C10: the packet types whose `write` is unimplemented -/

/-- `TCNetStatusPacket.write` (network.ts:222-224): unconditionally throws
`"not supported!"`, so no buffer is ever produced or modified. -/
def statusWrite (_buf : Buf) : Except String Buf := .error "not supported!"

/-- `TCNetTimePacket.write` (network.ts:305-307). -/
def timePacketWrite (_buf : Buf) : Except String Buf := .error "not supported!"

/-- `TCNetTimeSyncPacket.write` (network.ts:771-773). -/
def timeSyncWrite (_buf : Buf) : Except String Buf := .error "not supported!"

/-- `TCNetErrorNotification.write` (network.ts:805-807). -/
def errorNotificationWrite (_buf : Buf) : Except String Buf := .error "not supported!"

/-- `TCNetDataPacketMetrics.write` (network.ts:374-376). -/
def metricsWrite (_buf : Buf) : Except String Buf := .error "not supported!"

/-- `TCNetDataPacketMetadata.write` (network.ts:396-398). -/
def metadataWrite (_buf : Buf) : Except String Buf := .error "not supported!"

/-- `TCNetDataPacketMixerData.write` (network.ts:609-611). -/
def mixerDataWrite (_buf : Buf) : Except String Buf := .error "not supported!"

/-- `TCNetControlPacket.write` (network.ts:830-832). -/
def controlWrite (_buf : Buf) : Except String Buf := .error "not supported!"

/-- `TCNetTextDataPacket` (network.ts:836-840) overrides only `type()` and
inherits `TCNetControlPacket.write`. -/
def textDataWrite : Buf → Except String Buf := controlWrite

/-- `TCNetKeyboardDataPacket.write` (network.ts:860-862). -/
def keyboardWrite (_buf : Buf) : Except String Buf := .error "not supported!"

/-- `TCNetDataFilePacket.write` (network.ts:893-895). -/
def dataFileWrite (_buf : Buf) : Except String Buf := .error "not supported!"

/-- `TCNetApplicationData.write` (network.ts:926-928). -/
def applicationDataWrite (_buf : Buf) : Except String Buf := .error "not supported!"

/-- C10: for every buffer, the `write` of Status, Time, TimeSync, Error,
Metrics, Metadata, MixerData, Control, Text, Keyboard, File and
ApplicationData packets throws `"not supported!"`: no written buffer is ever
returned, so the underlying buffer is left unchanged. -/
theorem c10_write_not_supported (buf : Buf) :
    statusWrite buf = .error "not supported!" ∧
      timePacketWrite buf = .error "not supported!" ∧
      timeSyncWrite buf = .error "not supported!" ∧
      errorNotificationWrite buf = .error "not supported!" ∧
      metricsWrite buf = .error "not supported!" ∧
      metadataWrite buf = .error "not supported!" ∧
      mixerDataWrite buf = .error "not supported!" ∧
      controlWrite buf = .error "not supported!" ∧
      textDataWrite buf = .error "not supported!" ∧
      keyboardWrite buf = .error "not supported!" ∧
      dataFileWrite buf = .error "not supported!" ∧
      applicationDataWrite buf = .error "not supported!" :=
  ⟨rfl, rfl, rfl, rfl, rfl, rfl, rfl, rfl, rfl, rfl, rfl, rfl⟩
